import Mathlib

/-!
Shallow embedding of the AlarMe decky plugin backend (src/main.py).

Wall-clock time is modelled in whole seconds.  A local `datetime` value is a
pair of a day index (days since an epoch that falls on a Monday, so Python's
`weekday()` with Monday = 0 is the day index modulo 7) and a second-of-day;
`timedelta(days=1)` adds one to the day index, `replace(hour=, minute=,
second=0, microsecond=0)` replaces the second-of-day.  Timestamps are
`day * 86400 + sod`, matching `datetime.timestamp()` on a uniform local day.
Python float timestamps are restricted to integers; nullable fields become
`Option Int`, and Python truthiness (`None` and `0` are both falsy) is the
`truthy` predicate below.
-/

namespace AlarMe

/-- A local datetime: day index since a Monday epoch, plus seconds of day. -/
structure DT where
  day : Int
  sod : Int
deriving DecidableEq

/-- `datetime.timestamp()`: absolute seconds. -/
def DT.ts (d : DT) : Int := d.day * 86400 + d.sod

/-- `datetime.weekday()`: 0 = Monday ... 6 = Sunday. -/
def DT.weekday (d : DT) : Int := d.day % 7

/-- `dt + timedelta(days=n)`. -/
def DT.addDays (d : DT) (n : Int) : DT := { d with day := d.day + n }

/-- Python truthiness for a nullable number: `None` and `0` are falsy. -/
def truthy : Option Int → Bool
  | none => false
  | some v => v != 0

/-- An alarm record, restricted to the fields the verified operations read
or write (`main.py` stores alarms as dicts). -/
structure Alarm where
  enabled : Bool
  hour : Int
  minute : Int
  recurring : String
  snoozed_until : Option Int
  last_triggered : Option Int
  prevent_sleep : Bool
  prevent_sleep_window : Int
deriving DecidableEq

/-- Strip surrounding whitespace, as Python `int` does before parsing. -/
def pyStrip (cs : List Char) : List Char :=
  ((cs.dropWhile Char.isWhitespace).reverse.dropWhile Char.isWhitespace).reverse

/-- Python `str.split(",")`: split at every comma, keeping empty pieces. -/
def splitCommaAux : List Char → List Char → List (List Char)
  | [], acc => [acc.reverse]
  | c :: rest, acc =>
    if c = ',' then acc.reverse :: splitCommaAux rest []
    else splitCommaAux rest (c :: acc)

/-- Python `int(s)` on a character list: optional surrounding whitespace,
optional sign, a nonempty run of decimal digits; anything else raises
`ValueError` (`none`). -/
def pyToInt (s : List Char) : Option Int :=
  let digitsVal : List Char → Option Nat := fun cs =>
    if cs.isEmpty then none
    else if cs.all Char.isDigit then
      some (cs.foldl (fun acc c => acc * 10 + (c.toNat - 48)) 0)
    else none
  match pyStrip s with
  | '-' :: rest => (digitsVal rest).map (fun n => -(n : Int))
  | '+' :: rest => (digitsVal rest).map (fun n => (n : Int))
  | cs => (digitsVal cs).map (fun n => (n : Int))

/-- `[int(d) for d in recurring.split(",")]`: `none` when any part fails,
mirroring the `except` path in `_calculate_next_trigger`. -/
def parseDays (s : String) : Option (List Int) :=
  (splitCommaAux s.data []).mapM pyToInt

/-- `now.replace(hour=alarm["hour"], minute=alarm["minute"], second=0,
microsecond=0)` — the raw candidate instant of `_calculate_next_trigger`. -/
def rawCandidate (a : Alarm) (now : DT) : DT :=
  { day := now.day, sod := a.hour * 3600 + a.minute * 60 }

/-- Anti-double-fire guard (`main.py` lines 1178-1182): if `last_triggered`
is truthy and less than 120s before `now`, advance the candidate one day. -/
def guardAdv (a : Alarm) (now : DT) (t : DT) : DT :=
  match a.last_triggered with
  | none => t
  | some lt => if lt ≠ 0 ∧ now.ts - lt < 120 then t.addDays 1 else t

/-- The 90-second past-grace advance: if the candidate is more than 90s in
the past relative to `now`, advance it one day. -/
def graceAdv (now t : DT) : DT :=
  if t.ts < now.ts - 90 then t.addDays 1 else t

/-- `while target.weekday() >= 5: target += timedelta(days=1)` (bounded
fuel; 7 always suffices since weekdays cycle mod 7). -/
def skipWhileWeekend : Nat → DT → DT
  | 0, t => t
  | Nat.succ f, t => if 5 ≤ t.weekday then skipWhileWeekend f (t.addDays 1) else t

/-- `while target.weekday() < 5: target += timedelta(days=1)` (bounded fuel). -/
def skipWhileWeekday : Nat → DT → DT
  | 0, t => t
  | Nat.succ f, t => if t.weekday < 5 then skipWhileWeekday f (t.addDays 1) else t

/-- The `for _ in range(7)` walk of the custom day-set branch: return the
first candidate whose weekday is in the list, else the candidate after 7
advances (the trailing `return target.timestamp()`). -/
def customScan (days : List Int) : Nat → DT → Int
  | 0, t => t.ts
  | Nat.succ f, t => if days.contains t.weekday then t.ts else customScan days f (t.addDays 1)

/-- `_calculate_next_trigger` (`main.py` lines 1161-1232). -/
def calculateNextTrigger (a : Alarm) (now : DT) : Option Int :=
  if a.enabled = false then none
  else if truthy a.snoozed_until then a.snoozed_until
  else
    let target := guardAdv a now (rawCandidate a now)
    if a.recurring = "once" then some (graceAdv now target).ts
    else if a.recurring = "daily" then some (graceAdv now target).ts
    else if a.recurring = "weekdays" then some (skipWhileWeekend 7 (graceAdv now target)).ts
    else if a.recurring = "weekends" then some (skipWhileWeekday 7 (graceAdv now target)).ts
    else
      match parseDays a.recurring with
      | some days => some (customScan days 7 (graceAdv now target))
      | none => some (graceAdv now target).ts

/-- Outcome of one `_alarm_checker` pass over a single alarm: nothing due,
a missed classification (`_add_missed_item` with the given due time), or a
normal fire (the `alarme_alarm_triggered` emission path). -/
inductive AlarmOutcome where
  | idle : AlarmOutcome
  | missedAt : Int → AlarmOutcome
  | fired : AlarmOutcome
deriving DecidableEq

/-- Result of one `_alarm_checker` pass over a single alarm. -/
structure AlarmStep where
  alarm : Alarm
  outcome : AlarmOutcome
deriving DecidableEq

/-- The per-alarm body of `_alarm_checker` (`main.py` lines 1256-1321):
skip disabled alarms, compute the next trigger, then fire within the 90s
grace window or classify as missed beyond it, applying the post-fire /
post-miss state transitions. -/
def alarmCheckStep (a : Alarm) (now : DT) : AlarmStep :=
  if a.enabled = false then ⟨a, .idle⟩
  else
    match calculateNextTrigger a now with
    | none => ⟨a, .idle⟩
    | some nt =>
      if nt != 0 then
        if nt ≤ now.ts then
          if 90 < now.ts - nt then
            if a.recurring = "once" then
              ⟨{ a with enabled := false, snoozed_until := none }, .missedAt nt⟩
            else
              ⟨{ a with snoozed_until := none, last_triggered := some now.ts }, .missedAt nt⟩
          else
            if a.recurring = "once" then
              ⟨{ a with enabled := false, snoozed_until := none }, .fired⟩
            else
              if a.snoozed_until.isSome then
                ⟨{ a with snoozed_until := none }, .fired⟩
              else
                ⟨{ a with snoozed_until := none, last_triggered := some now.ts }, .fired⟩
        else ⟨a, .idle⟩
      else ⟨a, .idle⟩

/-- `snooze_alarm` on a found alarm (`main.py` lines 803-830): set
`snoozed_until := now + minutes*60` and re-enable. -/
def snoozeAlarm (a : Alarm) (nowTs minutes : Int) : Alarm :=
  { a with snoozed_until := some (nowTs + minutes * 60), enabled := true }

/-- A reminder record, restricted to the fields the verified operations
read or write.  `next_trigger` is the parsed ISO instant (`none` when the
field is missing or unparseable, the `except: continue` paths). -/
structure Reminder where
  enabled : Bool
  only_while_gaming : Bool
  reset_on_game_start : Bool
  frequency_minutes : Int
  next_trigger : Option Int
  triggers_remaining : Int
  recurrences : Int
  prevent_sleep : Bool
deriving DecidableEq

/-- `create_reminder` (`main.py` lines 2307-2375) with no `start_time`:
first trigger at `now + frequency_minutes`, `triggers_remaining :=
recurrences`, enabled, and `prevent_sleep` forced off for gaming-only
reminders. -/
def createReminder (freq recs : Int) (og rg ps : Bool) (nowTs : Int) : Reminder :=
  { enabled := true
    only_while_gaming := og
    reset_on_game_start := rg
    frequency_minutes := freq
    next_trigger := some (nowTs + freq * 60)
    triggers_remaining := recs
    recurrences := recs
    prevent_sleep := if og then false else ps }

/-- `update_reminder` (`main.py` lines 2377-2427) with no `start_time`:
overwrite the fields, reset `triggers_remaining := recurrences`, re-enable. -/
def updateReminder (r : Reminder) (freq recs : Int) (og rg ps : Bool) (nowTs : Int) : Reminder :=
  { r with
    enabled := true
    only_while_gaming := og
    reset_on_game_start := rg
    frequency_minutes := freq
    next_trigger := some (nowTs + freq * 60)
    triggers_remaining := recs
    recurrences := recs
    prevent_sleep := if og then false else ps }

/-- `toggle_reminder` (`main.py` lines 2449-2467): set `enabled`; when
re-enabling, reset `next_trigger` and `triggers_remaining`. -/
def toggleReminder (r : Reminder) (enabled : Bool) (nowTs : Int) : Reminder :=
  if enabled then
    { r with
      enabled := true
      next_trigger := some (nowTs + r.frequency_minutes * 60)
      triggers_remaining := r.recurrences }
  else { r with enabled := false }

/-- The shared schedule-advance tail of the `_reminder_checker` body
(`main.py` lines 2595-2605): push `next_trigger` forward from `now`,
decrement a positive counter, auto-disable on exhaustion. -/
def advanceReminder (nowTs : Int) (r : Reminder) : Reminder :=
  let r1 := { r with next_trigger := some (nowTs + r.frequency_minutes * 60) }
  if 0 < r.triggers_remaining then
    if r.triggers_remaining - 1 = 0 then
      { r1 with triggers_remaining := r.triggers_remaining - 1, enabled := false }
    else
      { r1 with triggers_remaining := r.triggers_remaining - 1 }
  else r1

/-- Result of one `_reminder_checker` pass over a single reminder:
`missed` is the due time passed to `_add_missed_item` (if any) and
`triggered` records the `alarme_reminder_triggered` emission. -/
structure ReminderStep where
  reminder : Reminder
  missed : Option Int
  triggered : Bool
deriving DecidableEq

/-- The per-reminder body of `_reminder_checker` (`main.py` lines
2543-2607), with the foreground-activity signal passed explicitly. -/
def reminderCheckStep (gameRunning : Bool) (nowTs : Int) (r : Reminder) : ReminderStep :=
  if r.enabled = false then ⟨r, none, false⟩
  else if r.triggers_remaining = 0 then ⟨r, none, false⟩
  else if r.only_while_gaming && !gameRunning then ⟨r, none, false⟩
  else
    match r.next_trigger with
    | none => ⟨r, none, false⟩
    | some nt =>
      if nt ≤ nowTs then
        if 60 < nowTs - nt then
          -- missed: log only for non-gaming reminders, advance, no emit
          ⟨advanceReminder nowTs r, if r.only_while_gaming then none else some nt, false⟩
        else
          -- trigger path; the source re-checks the gaming condition here
          if r.only_while_gaming && !gameRunning then ⟨r, none, false⟩
          else ⟨advanceReminder nowTs r, none, true⟩
      else ⟨r, none, false⟩

/-- The per-reminder body of the `pause` branch of `_check_missed_reminders`
(`main.py` lines 2694-2716): shift `next_trigger` forward by the suspend
duration, skipping disabled and gaming-only reminders. -/
def pauseShiftStep (duration : Int) (r : Reminder) : Reminder :=
  if 0 < duration then
    if r.enabled = false then r
    else if r.only_while_gaming then r
    else
      match r.next_trigger with
      | none => r
      | some t => { r with next_trigger := some (t + duration) }
  else r

/-- The `while check_ts < end_time` scan of the `continue` branch of
`_check_missed_reminders`: returns the final `check_ts`, the
`processed_count`, and `last_missed`.  The fuel bounds the loop; any fuel
larger than the iteration count gives the loop's exact result. -/
def missedScan (gapStart gapEnd step : Int) : Nat → Int → Nat → Option Int → Int × Nat × Option Int
  | 0, check, cnt, lm => (check, cnt, lm)
  | Nat.succ f, check, cnt, lm =>
    if check < gapEnd then
      missedScan gapStart gapEnd step f (check + step) (cnt + 1)
        (if gapStart ≤ check then some check else lm)
    else (check, cnt, lm)

/-- Result of the `continue` branch of `_check_missed_reminders` on one
reminder: `missed` is the single `_add_missed_item` call — the last missed
due time together with the processed occurrence count. -/
structure ReconResult where
  reminder : Reminder
  missed : Option (Int × Nat)
deriving DecidableEq

/-- The per-reminder body of the `continue` (report-missed) branch of
`_check_missed_reminders` (`main.py` lines 2719-2771).  The scan fuel
`(gapEnd - next_ts).toNat + 1` exceeds the iteration count whenever the
step is at least one second, so it reproduces the unbounded source loop on
every input on which that loop terminates. -/
def continueRecon (gapStart gapEnd : Int) (r : Reminder) : ReconResult :=
  if r.enabled = false then ⟨r, none⟩
  else if r.only_while_gaming then ⟨r, none⟩
  else
    match r.next_trigger with
    | none => ⟨r, none⟩
    | some nextTs =>
      let step := r.frequency_minutes * 60
      let res := missedScan gapStart gapEnd step ((gapEnd - nextTs).toNat + 1) nextTs 0 none
      if truthy res.2.2 then
        let r1 := { r with next_trigger := some res.1 }
        let r2 :=
          if 0 < r.triggers_remaining then
            if max 0 (r.triggers_remaining - res.2.1) = 0 then
              { r1 with triggers_remaining := max 0 (r.triggers_remaining - res.2.1),
                        enabled := false }
            else
              { r1 with triggers_remaining := max 0 (r.triggers_remaining - res.2.1) }
          else r1
        ⟨r2, some (res.2.2.getD 0, res.2.1)⟩
      else ⟨r, none⟩

/-- Pomodoro-relevant user settings (durations in minutes, as stored). -/
structure PomoSettings where
  work_duration : Int
  break_duration : Int
  long_break_duration : Int
  sessions_until_long_break : Int
deriving DecidableEq

/-- The single Pomodoro session record.  The work-phase dicts built by the
source carry no `break_type` key, modelled as `none`. -/
structure PomodoroState where
  active : Bool
  is_break : Bool
  current_session : Int
  current_cycle : Int
  start_time : Int
  end_time : Int
  duration : Int
  break_type : Option String
deriving DecidableEq

/-- The phase-change transition of `_pomodoro_handler` (`main.py` lines
1702-1753): break → work (resetting the session and bumping the cycle after
a long break) or work → break (long break every `sessions_until_long_break`
sessions, via `session % sessions_until_long == 0`). -/
def phaseTransition (cfg : PomoSettings) (nowTs : Int) (s : PomodoroState) : PomodoroState :=
  if s.is_break then
    let wasLong := s.break_type = some "long"
    { active := true
      is_break := false
      current_session := if wasLong then 1 else s.current_session + 1
      current_cycle := if wasLong then s.current_cycle + 1 else s.current_cycle
      start_time := nowTs
      end_time := nowTs + cfg.work_duration * 60
      duration := cfg.work_duration * 60
      break_type := none }
  else
    let isLong := s.current_session % cfg.sessions_until_long_break = 0
    let bd := if isLong then cfg.long_break_duration * 60 else cfg.break_duration * 60
    { active := true
      is_break := true
      current_session := s.current_session
      current_cycle := s.current_cycle
      start_time := nowTs
      end_time := nowTs + bd
      duration := bd
      break_type := some (if isLong then "long" else "short") }

/-- The state built by `skip_pomodoro_phase` (`main.py` lines 1443-1490);
its session/cycle/break-type arithmetic mirrors `_pomodoro_handler`. -/
def skipPhase (cfg : PomoSettings) (nowTs : Int) (s : PomodoroState) : PomodoroState :=
  if s.is_break then
    let wasLong := s.break_type = some "long"
    { active := true
      is_break := false
      current_session := if wasLong then 1 else s.current_session + 1
      current_cycle := if wasLong then s.current_cycle + 1 else s.current_cycle
      start_time := nowTs
      end_time := nowTs + cfg.work_duration * 60
      duration := cfg.work_duration * 60
      break_type := none }
  else
    let isLong := s.current_session % cfg.sessions_until_long_break = 0
    let bd := if isLong then cfg.long_break_duration * 60 else cfg.break_duration * 60
    { active := true
      is_break := true
      current_session := s.current_session
      current_cycle := s.current_cycle
      start_time := nowTs
      end_time := nowTs + bd
      duration := bd
      break_type := some (if isLong then "long" else "short") }

/-- A timer record, restricted to the fields the inhibitor scan reads. -/
structure Timer where
  paused : Bool
  prevent_sleep : Bool
deriving DecidableEq

/-- The awake-handle: whether the uinput inhibitor is active, plus how many
times it was actually acquired and released. -/
structure InhibitorState where
  active : Bool
  acquires : Nat
  releases : Nat
deriving DecidableEq

/-- `_acquire_sleep_inhibitor` (`main.py` lines 275-278): a no-op when
already active, otherwise one acquisition of the handle. -/
def acquireSleepInhibitor (s : InhibitorState) : InhibitorState :=
  if s.active then s
  else { active := true, acquires := s.acquires + 1, releases := s.releases }

/-- `_release_sleep_inhibitor` (`main.py` lines 320-323): a no-op when not
active, otherwise one release of the handle. -/
def releaseSleepInhibitor (s : InhibitorState) : InhibitorState :=
  if s.active = false then s
  else { active := false, acquires := s.acquires, releases := s.releases + 1 }

/-- Whether an alarm contributes to sleep inhibition (`main.py` lines
196-206): enabled, flagged, and with a truthy next trigger inside the
per-alarm look-ahead window. -/
def alarmInhibits (now : DT) (a : Alarm) : Bool :=
  a.enabled && a.prevent_sleep &&
    (match calculateNextTrigger a now with
     | some nt =>
       (nt != 0) && decide (0 < nt - now.ts) && decide (nt - now.ts ≤ a.prevent_sleep_window * 60)
     | none => false)

/-- The `should_inhibit` scan of `_update_sleep_inhibitor` (`main.py`
lines 169-219) over the four entity stores. -/
def computeShouldInhibit (timers : List Timer) (pomoActive pomoPreventSleep : Bool)
    (alarms : List Alarm) (reminders : List Reminder) (now : DT) : Bool :=
  timers.any (fun t => !t.paused && t.prevent_sleep) ||
  (pomoActive && pomoPreventSleep) ||
  alarms.any (alarmInhibits now) ||
  reminders.any (fun r => r.enabled && r.prevent_sleep)

/-- `_update_sleep_inhibitor` (`main.py` lines 169-227): recompute the
decision from the stores and drive the awake-handle. -/
def updateSleepInhibitor (timers : List Timer) (pomoActive pomoPreventSleep : Bool)
    (alarms : List Alarm) (reminders : List Reminder) (now : DT)
    (s : InhibitorState) : InhibitorState :=
  if computeShouldInhibit timers pomoActive pomoPreventSleep alarms reminders now then
    acquireSleepInhibitor s
  else
    releaseSleepInhibitor s

/-- The invariant of claim C7: an exhausted counter implies a disabled
reminder. -/
def Inv (r : Reminder) : Prop := r.triggers_remaining = 0 → r.enabled = false

instance (r : Reminder) : Decidable (Inv r) := by
  unfold Inv
  infer_instance

/-! Concrete records used by the counterexamples and witnesses. -/

/-- The reminder of claim C1: `frequency_minutes = 60`, `next_trigger = T`
with `T = 1000000`, unlimited recurrences. -/
def remC1 : Reminder :=
  { enabled := true, only_while_gaming := false, reset_on_game_start := false,
    frequency_minutes := 60, next_trigger := some 1000000,
    triggers_remaining := -1, recurrences := -1, prevent_sleep := false }

/-- C1 counterexample: with `T = 1000000`, a gap from `T-10s` to `T+185min`
(`999990` to `1011100`) does not give `next_trigger = T+180min` under
report-missed (the occurrence at `T+180min` also lies inside the gap, so the
schedule advances to `T+240min`), and pause-and-shift does not give
`next_trigger = T+185min` (it shifts by the full `185min+10s` gap). -/
theorem suspend_recon_gap_cex :
    (continueRecon 999990 1011100 remC1).reminder.next_trigger ≠ some 1010800 ∧
    (pauseShiftStep 11110 remC1).next_trigger ≠ some 1011100 := by decide

/-- C1 (amended): for a reminder with `frequency_minutes = 60` and
`next_trigger = T` (`T = 1000000`) and a detected gap from `T-10s` to
`T+185min`, report-missed counts the 4 in-gap occurrences (`T`, `T+60min`,
`T+120min`, `T+180min`), issues exactly one MissedItem call — for the last
occurrence `T+180min` with occurrence count 4 — and sets `next_trigger` to
`T+240min`; pause-and-shift logs nothing and shifts `next_trigger` forward
by exactly the gap duration (`185min + 10s`), giving `T+11110s`. -/
theorem suspend_recon_gap :
    continueRecon 999990 1011100 remC1 =
      ⟨{ remC1 with next_trigger := some 1014400 }, some (1010800, 4)⟩ ∧
    pauseShiftStep 11110 remC1 = { remC1 with next_trigger := some 1011110 } := by decide

/-- The alarm of claim C2: enabled, `daily`, 09:00, not snoozed, not
recently triggered. -/
def alarmC2 : Alarm :=
  { enabled := true, hour := 9, minute := 0, recurring := "daily",
    snoozed_until := none, last_triggered := none,
    prevent_sleep := false, prevent_sleep_window := 60 }

/-- C2 counterexample: observed 91s late (09:01:31, second 32491 of a day),
the checker records no MissedItem and leaves the alarm unchanged — the
calculator has already advanced the trigger past `now`, so the alarm is not
"classified as missed" as the claim states. -/
theorem alarm_grace_boundary_cex :
    alarmCheckStep alarmC2 ⟨0, 32491⟩ = ⟨alarmC2, AlarmOutcome.idle⟩ := by decide

/-- C2 (amended): a daily 09:00 alarm observed 89s late (09:01:29) fires
normally (setting `last_triggered`); observed 91s late (09:01:31) it is
rescheduled to the next day (09:00 the following day, timestamp 118800)
without firing, but no MissedItem is recorded — the calculator's own
90-second advance makes the checker's missed branch unreachable for a
non-snoozed alarm. -/
theorem alarm_grace_boundary :
    alarmCheckStep alarmC2 ⟨0, 32489⟩ =
      ⟨{ alarmC2 with last_triggered := some 32489 }, AlarmOutcome.fired⟩ ∧
    alarmCheckStep alarmC2 ⟨0, 32491⟩ = ⟨alarmC2, AlarmOutcome.idle⟩ ∧
    calculateNextTrigger alarmC2 ⟨0, 32491⟩ = some 118800 := by decide

/-- The alarm of the C3 counterexample: enabled with `snoozed_until = 0`,
the epoch instant — an instant in the past, but falsy in Python. -/
def alarmC3 : Alarm :=
  { enabled := true, hour := 9, minute := 0, recurring := "daily",
    snoozed_until := some 0, last_triggered := none,
    prevent_sleep := false, prevent_sleep_window := 60 }

/-- C3 counterexample: an enabled alarm whose `snoozed_until` is the past
instant 0 is not reported at its snooze time — `if alarm.get("snoozed_until")`
tests Python truthiness, so the zero timestamp falls through to normal
scheduling and the calculator returns today's 09:00 instead. -/
theorem snooze_precedence_cex :
    calculateNextTrigger alarmC3 ⟨0, 32400⟩ = some 32400 ∧
    calculateNextTrigger alarmC3 ⟨0, 32400⟩ ≠ alarmC3.snoozed_until := by decide

/-- C3 (amended): for every enabled alarm whose `snoozed_until` is set to
any truthy (nonzero) instant, including instants already in the past, the
calculator returns exactly `snoozed_until`, regardless of `recurring`,
`hour`, `minute` or `last_triggered`. -/
theorem snooze_precedence (a : Alarm) (now : DT)
    (h1 : a.enabled = true) (h2 : truthy a.snoozed_until = true) :
    calculateNextTrigger a now = a.snoozed_until := by
  simp [calculateNextTrigger, h1, h2]

/-- Witness for the amended C3 theorem at a concrete past-snoozed alarm. -/
theorem snooze_precedence_witness :
    (let a : Alarm :=
      { enabled := true, hour := 7, minute := 30, recurring := "weekends",
        snoozed_until := some 500, last_triggered := some 400,
        prevent_sleep := false, prevent_sleep_window := 60 }
    a.enabled = true ∧ truthy a.snoozed_until = true ∧
      calculateNextTrigger a ⟨3, 100⟩ = a.snoozed_until) :=
  ⟨by decide, by decide,
    snooze_precedence
      { enabled := true, hour := 7, minute := 30, recurring := "weekends",
        snoozed_until := some 500, last_triggered := some 400,
        prevent_sleep := false, prevent_sleep_window := 60 }
      ⟨3, 100⟩ (by decide) (by decide)⟩

/-- C4: a `once` alarm that the checker fires ends disabled with
`snoozed_until = null`, and the calculator applied afterwards returns
"none" at any later instant. -/
theorem once_alarm_post_fire (a : Alarm) (now now2 : DT)
    (h1 : a.recurring = "once")
    (h2 : (alarmCheckStep a now).outcome = AlarmOutcome.fired) :
    (alarmCheckStep a now).alarm.enabled = false ∧
    (alarmCheckStep a now).alarm.snoozed_until = none ∧
    calculateNextTrigger (alarmCheckStep a now).alarm now2 = none := by
  have hstep : alarmCheckStep a now =
      ⟨{ a with enabled := false, snoozed_until := none }, AlarmOutcome.fired⟩ := by
    by_cases he : a.enabled = false
    · exfalso; simp [alarmCheckStep, he] at h2
    · rcases hnt : calculateNextTrigger a now with _ | nt
      · exfalso; simp [alarmCheckStep, he, hnt] at h2
      · by_cases hz : (nt != 0) = true
        · by_cases hle : nt ≤ now.ts
          · by_cases hd : 90 < now.ts - nt
            · exfalso; simp [alarmCheckStep, he, hnt, hz, hle, hd, h1] at h2
            · simp [alarmCheckStep, he, hnt, hz, hle, hd, h1]
          · exfalso; simp [alarmCheckStep, he, hnt, hz, hle] at h2
        · exfalso; simp [alarmCheckStep, he, hnt, hz] at h2
  rw [hstep]
  refine ⟨rfl, rfl, ?_⟩
  simp [calculateNextTrigger]

/-- Witness for C4: a concrete `once` alarm fired 10s after its 09:00
target. -/
theorem once_alarm_post_fire_witness :
    (let a : Alarm :=
      { enabled := true, hour := 9, minute := 0, recurring := "once",
        snoozed_until := none, last_triggered := none,
        prevent_sleep := false, prevent_sleep_window := 60 }
    a.recurring = "once" ∧
      (alarmCheckStep a ⟨0, 32410⟩).outcome = AlarmOutcome.fired ∧
      ((alarmCheckStep a ⟨0, 32410⟩).alarm.enabled = false ∧
       (alarmCheckStep a ⟨0, 32410⟩).alarm.snoozed_until = none ∧
       calculateNextTrigger (alarmCheckStep a ⟨0, 32410⟩).alarm ⟨0, 40000⟩ = none)) :=
  ⟨by decide, by decide,
    once_alarm_post_fire
      { enabled := true, hour := 9, minute := 0, recurring := "once",
        snoozed_until := none, last_triggered := none,
        prevent_sleep := false, prevent_sleep_window := 60 }
      ⟨0, 32410⟩ ⟨0, 40000⟩ (by decide) (by decide)⟩

/-- C5: the sleep-inhibition aggregator is idempotent — recomputing with
unchanged entity-store inputs leaves the awake-handle state, including its
acquire and release counts, exactly as after the first recomputation:
acquire when active and release when inactive are no-ops. -/
theorem sleep_inhibitor_idempotent (timers : List Timer)
    (pomoActive pomoPreventSleep : Bool) (alarms : List Alarm)
    (reminders : List Reminder) (now : DT) (s : InhibitorState) :
    updateSleepInhibitor timers pomoActive pomoPreventSleep alarms reminders now
        (updateSleepInhibitor timers pomoActive pomoPreventSleep alarms reminders now s) =
      updateSleepInhibitor timers pomoActive pomoPreventSleep alarms reminders now s := by
  by_cases hc : computeShouldInhibit timers pomoActive pomoPreventSleep alarms reminders now
  <;> by_cases hs : s.active
  <;> simp [updateSleepInhibitor, acquireSleepInhibitor, releaseSleepInhibitor, hc, hs]

/-- C6: a reminder flagged `only_while_gaming` is never recorded as a
MissedItem while the foreground-activity signal is false — the reminder
check loop leaves it entirely unchanged and logs nothing (so its
`next_trigger` is not advanced) — and suspend reconciliation skips it in
both modes (no MissedItem under report-missed, no shift under
pause-and-shift). -/
theorem gaming_only_never_missed (r : Reminder) (nowTs gapStart gapEnd dur : Int)
    (h : r.only_while_gaming = true) :
    reminderCheckStep false nowTs r = ⟨r, none, false⟩ ∧
    continueRecon gapStart gapEnd r = ⟨r, none⟩ ∧
    pauseShiftStep dur r = r := by
  refine ⟨?_, ?_, ?_⟩
  · by_cases he : r.enabled = false
    · simp [reminderCheckStep, he]
    · by_cases ht : r.triggers_remaining = 0
      · simp [reminderCheckStep, he, ht]
      · simp [reminderCheckStep, he, ht, h]
  · by_cases he : r.enabled = false
    · simp [continueRecon, he]
    · simp [continueRecon, he, h]
  · by_cases hd : 0 < dur
    · by_cases he : r.enabled = false
      · simp [pauseShiftStep, hd, he]
      · simp [pauseShiftStep, hd, he, h]
    · simp [pauseShiftStep, hd]

/-- Witness for C6 at a concrete gaming-only reminder, overdue at the
observation instant. -/
theorem gaming_only_never_missed_witness :
    (let r : Reminder :=
      { enabled := true, only_while_gaming := true, reset_on_game_start := false,
        frequency_minutes := 30, next_trigger := some 5000,
        triggers_remaining := 3, recurrences := 3, prevent_sleep := false }
    r.only_while_gaming = true ∧
      (reminderCheckStep false 9000 r = ⟨r, none, false⟩ ∧
       continueRecon 4000 20000 r = ⟨r, none⟩ ∧
       pauseShiftStep 16000 r = r)) :=
  ⟨by decide,
    gaming_only_never_missed
      { enabled := true, only_while_gaming := true, reset_on_game_start := false,
        frequency_minutes := 30, next_trigger := some 5000,
        triggers_remaining := 3, recurrences := 3, prevent_sleep := false }
      9000 4000 20000 16000 (by decide)⟩

/-- Helper for C7: the shared schedule-advance tail disables the reminder
exactly when it decrements the counter to zero, so it preserves the
"exhausted implies disabled" invariant whenever the counter was nonzero on
entry. -/
theorem advanceReminder_inv (nowTs : Int) (r : Reminder)
    (h : r.triggers_remaining ≠ 0) : Inv (advanceReminder nowTs r) := by
  unfold Inv advanceReminder
  split
  · split
    · intro _; rfl
    · intro h0; exact absurd h0 (by assumption)
  · intro h0; exact absurd h0 h

/-- C7: every reminder operation — create, update, toggle, the reminder
check loop, and both suspend-reconciliation modes — preserves the invariant
`triggers_remaining = 0 → enabled = false`, given the documented domain of
the `recurrences` argument (−1 for infinite, else positive) and a stored
`recurrences` field in that domain. -/
theorem triggers_remaining_zero_disabled (r : Reminder)
    (freq recs nowTs gapStart gapEnd dur : Int)
    (og rg ps b gameRunning : Bool)
    (hdom : recs = -1 ∨ 0 < recs)
    (hstored : r.recurrences = -1 ∨ 0 < r.recurrences)
    (hr : Inv r) :
    Inv (createReminder freq recs og rg ps nowTs) ∧
    Inv (updateReminder r freq recs og rg ps nowTs) ∧
    Inv (toggleReminder r b nowTs) ∧
    Inv (reminderCheckStep gameRunning nowTs r).reminder ∧
    Inv (continueRecon gapStart gapEnd r).reminder ∧
    Inv (pauseShiftStep dur r) := by
  refine ⟨?_, ?_, ?_, ?_, ?_, ?_⟩
  · intro h0
    have h0' : recs = 0 := h0
    rcases hdom with hd | hd <;> omega
  · intro h0
    have h0' : recs = 0 := h0
    rcases hdom with hd | hd <;> omega
  · unfold toggleReminder
    split
    · intro h0
      have h0' : r.recurrences = 0 := h0
      rcases hstored with hd | hd <;> omega
    · intro _; rfl
  · unfold reminderCheckStep
    split
    · exact hr
    · split
      · exact hr
      · split
        · exact hr
        · split
          · exact hr
          · split
            · split
              · exact advanceReminder_inv nowTs r (by assumption)
              · exact advanceReminder_inv nowTs r (by assumption)
            · exact hr
  · unfold continueRecon
    split
    · exact hr
    · split
      · exact hr
      · split
        · exact hr
        · dsimp only
          split
          · split
            · split
              · intro _; rfl
              · intro h0; exact absurd h0 (by assumption)
            · intro h0; exact hr h0
          · exact hr
  · unfold pauseShiftStep
    split
    · split
      · exact hr
      · split
        · exact hr
        · split
          · exact hr
          · exact hr
    · exact hr

/-- Witness for C7 at a concrete two-shot reminder. -/
theorem triggers_remaining_zero_disabled_witness :
    (let r : Reminder :=
      { enabled := true, only_while_gaming := false, reset_on_game_start := false,
        frequency_minutes := 60, next_trigger := some 1000,
        triggers_remaining := 2, recurrences := 2, prevent_sleep := false }
    (r.recurrences = -1 ∨ 0 < r.recurrences) ∧ Inv r ∧
      (Inv (createReminder 60 2 false false false 5000) ∧
       Inv (updateReminder r 60 2 false false false 5000) ∧
       Inv (toggleReminder r true 5000) ∧
       Inv (reminderCheckStep false 5000 r).reminder ∧
       Inv (continueRecon 900 9000 r).reminder ∧
       Inv (pauseShiftStep 8100 r))) :=
  ⟨by decide, by decide,
    triggers_remaining_zero_disabled
      { enabled := true, only_while_gaming := false, reset_on_game_start := false,
        frequency_minutes := 60, next_trigger := some 1000,
        triggers_remaining := 2, recurrences := 2, prevent_sleep := false }
      60 2 5000 900 9000 8100 false false false true false
      (by right; decide) (by right; decide) (by decide)⟩

/-- C8: with `sessions_until_long_break = 4`, work sessions 1-3 are
followed by a short break and session 4 by a long break (the work→break
transition leaving session and cycle unchanged); after a long break
completes, `current_session` resets to 1 and `current_cycle` increments by
exactly 1; after a short break, `current_session` increments and
`current_cycle` is unchanged — in both the running handler's transition and
the skip operation. -/
theorem pomodoro_cycle_arithmetic (cfg : PomoSettings) (s : PomodoroState) (nowTs : Int)
    (hcfg : cfg.sessions_until_long_break = 4) :
    (s.is_break = false →
      ((s.current_session = 1 ∨ s.current_session = 2 ∨ s.current_session = 3 →
        (phaseTransition cfg nowTs s).break_type = some "short" ∧
        (skipPhase cfg nowTs s).break_type = some "short") ∧
       (s.current_session = 4 →
        (phaseTransition cfg nowTs s).break_type = some "long" ∧
        (skipPhase cfg nowTs s).break_type = some "long") ∧
       (phaseTransition cfg nowTs s).current_session = s.current_session ∧
       (phaseTransition cfg nowTs s).current_cycle = s.current_cycle ∧
       (skipPhase cfg nowTs s).current_session = s.current_session ∧
       (skipPhase cfg nowTs s).current_cycle = s.current_cycle)) ∧
    (s.is_break = true → s.break_type = some "long" →
      ((phaseTransition cfg nowTs s).current_session = 1 ∧
       (phaseTransition cfg nowTs s).current_cycle = s.current_cycle + 1 ∧
       (skipPhase cfg nowTs s).current_session = 1 ∧
       (skipPhase cfg nowTs s).current_cycle = s.current_cycle + 1)) ∧
    (s.is_break = true → s.break_type = some "short" →
      ((phaseTransition cfg nowTs s).current_session = s.current_session + 1 ∧
       (phaseTransition cfg nowTs s).current_cycle = s.current_cycle ∧
       (skipPhase cfg nowTs s).current_session = s.current_session + 1 ∧
       (skipPhase cfg nowTs s).current_cycle = s.current_cycle)) := by
  refine ⟨?_, ?_, ?_⟩
  · intro hb
    refine ⟨?_, ?_, ?_, ?_, ?_, ?_⟩
    · rintro (hs | hs | hs) <;>
        simp [phaseTransition, skipPhase, hb, hcfg, hs]
    · intro hs
      simp [phaseTransition, skipPhase, hb, hcfg, hs]
    · simp [phaseTransition, hb]
    · simp [phaseTransition, hb]
    · simp [skipPhase, hb]
    · simp [skipPhase, hb]
  · intro hb hbt
    simp [phaseTransition, skipPhase, hb, hbt]
  · intro hb hbt
    simp [phaseTransition, skipPhase, hb, hbt]

/-- Witness for C8 at a concrete configuration and a session-4 work phase. -/
theorem pomodoro_cycle_arithmetic_witness :
    (let cfg : PomoSettings :=
      { work_duration := 25, break_duration := 5, long_break_duration := 15,
        sessions_until_long_break := 4 }
    let s : PomodoroState :=
      { active := true, is_break := false, current_session := 4,
        current_cycle := 2, start_time := 0, end_time := 1500,
        duration := 1500, break_type := none }
    cfg.sessions_until_long_break = 4 ∧
      (s.is_break = false →
        (s.current_session = 4 →
          (phaseTransition cfg 1500 s).break_type = some "long" ∧
          (skipPhase cfg 1500 s).break_type = some "long"))) :=
  ⟨by decide, fun _ hs =>
    ((pomodoro_cycle_arithmetic
      { work_duration := 25, break_duration := 5, long_break_duration := 15,
        sessions_until_long_break := 4 }
      { active := true, is_break := false, current_session := 4,
        current_cycle := 2, start_time := 0, end_time := 1500,
        duration := 1500, break_type := none }
      1500 (by decide)).1 (by decide)).2.1 hs⟩

/-- The alarm of the C9 counterexample: an unparseable custom day-set
(`"mon"`), observed 200s after its 09:00 target. -/
def alarmC9 : Alarm :=
  { enabled := true, hour := 9, minute := 0, recurring := "mon",
    snoozed_until := none, last_triggered := none,
    prevent_sleep := false, prevent_sleep_window := 60 }

/-- C9 counterexample: for the malformed filter `"mon"` observed at
09:03:20 (second 32600), the calculator returns tomorrow's 09:00
(timestamp 118800), not "today at hour:minute" (timestamp 32400) — the
90-second past-grace advance is applied before the parse attempt, so the
fallback is not always today's raw candidate. -/
theorem malformed_recurrence_fallback_cex :
    calculateNextTrigger alarmC9 ⟨0, 32600⟩ = some 118800 ∧
    (rawCandidate alarmC9 ⟨0, 32600⟩).ts = 32400 ∧
    calculateNextTrigger alarmC9 ⟨0, 32600⟩ ≠ some (rawCandidate alarmC9 ⟨0, 32600⟩).ts := by
  decide

/-- C9 (amended): for every enabled, non-snoozed alarm whose `recurring`
string is none of the four keywords and cannot be parsed as comma-separated
integers, the calculator recovers locally — the parse error never
propagates — and returns the candidate after the anti-double-fire and
90-second past-grace advances (today or the next day at `hour:minute`),
with no weekday-based advancement. -/
theorem malformed_recurrence_fallback (a : Alarm) (now : DT)
    (h1 : a.enabled = true) (h2 : truthy a.snoozed_until = false)
    (h3 : a.recurring ≠ "once") (h4 : a.recurring ≠ "daily")
    (h5 : a.recurring ≠ "weekdays") (h6 : a.recurring ≠ "weekends")
    (h7 : parseDays a.recurring = none) :
    calculateNextTrigger a now =
      some (graceAdv now (guardAdv a now (rawCandidate a now))).ts := by
  simp [calculateNextTrigger, h1, h2, h3, h4, h5, h6, h7]

/-- Witness for the amended C9 theorem at the concrete malformed filter. -/
theorem malformed_recurrence_fallback_witness :
    alarmC9.enabled = true ∧ truthy alarmC9.snoozed_until = false ∧
    parseDays alarmC9.recurring = none ∧
    calculateNextTrigger alarmC9 ⟨0, 32600⟩ =
      some (graceAdv ⟨0, 32600⟩ (guardAdv alarmC9 ⟨0, 32600⟩ (rawCandidate alarmC9 ⟨0, 32600⟩))).ts :=
  ⟨by decide, by decide, by decide,
    malformed_recurrence_fallback alarmC9 ⟨0, 32600⟩ (by decide) (by decide)
      (by decide) (by decide) (by decide) (by decide) (by decide)⟩

/-- C10: `snooze_alarm` always sets `enabled := true` alongside
`snoozed_until := now + minutes*60`, so snoozing a disabled alarm (such as
a fired `once` alarm) re-enables it, and the calculator on the resulting
record returns the snooze instant rather than "none" (for any positive
current time and nonnegative snooze duration, so the snooze instant is a
truthy timestamp). -/
theorem snooze_reenables_alarm (a : Alarm) (nowTs minutes : Int) (now2 : DT)
    (h1 : 0 < nowTs) (h2 : 0 ≤ minutes) :
    (snoozeAlarm a nowTs minutes).enabled = true ∧
    (snoozeAlarm a nowTs minutes).snoozed_until = some (nowTs + minutes * 60) ∧
    calculateNextTrigger (snoozeAlarm a nowTs minutes) now2 = some (nowTs + minutes * 60) := by
  have h60 : 0 ≤ minutes * 60 := mul_nonneg h2 (by norm_num)
  have hne : nowTs + minutes * 60 ≠ 0 := by omega
  refine ⟨rfl, rfl, ?_⟩
  simp [calculateNextTrigger, snoozeAlarm, truthy, hne]

/-- Witness for C10: snoozing a disabled, already-fired `once` alarm for 5
minutes at time 2000. -/
theorem snooze_reenables_alarm_witness :
    (let a : Alarm :=
      { enabled := false, hour := 9, minute := 0, recurring := "once",
        snoozed_until := none, last_triggered := some 1900,
        prevent_sleep := false, prevent_sleep_window := 60 }
    (0 : Int) < 2000 ∧ (0 : Int) ≤ 5 ∧
      ((snoozeAlarm a 2000 5).enabled = true ∧
       (snoozeAlarm a 2000 5).snoozed_until = some 2300 ∧
       calculateNextTrigger (snoozeAlarm a 2000 5) ⟨0, 2100⟩ = some 2300)) :=
  ⟨by decide, by decide,
    snooze_reenables_alarm
      { enabled := false, hour := 9, minute := 0, recurring := "once",
        snoozed_until := none, last_triggered := some 1900,
        prevent_sleep := false, prevent_sleep_window := 60 }
      2000 5 ⟨0, 2100⟩ (by decide) (by decide)⟩

end AlarMe
